import Mathlib

/-!
# Weather dashboard — verification of the server and client behaviour

Shallow embedding of `server/server.js` (the Express API layer) and of the
relevant parts of `client/src/App.js` from the weather-dashboard repository.

Conventions of the embedding:
* JavaScript numbers that can only originate from a JSON body are modelled
  as `ℚ` (JSON literals cannot denote `NaN` or `Infinity`).
* Results of the JavaScript `Number(...)` coercion applied to query-string
  values are modelled by `JsNum`, which distinguishes `NaN`, `Infinity`,
  `-Infinity` and finite values, because `Number` applied to a string can
  produce any of those (`Number("Infinity") = Infinity`, `Number("abc") = NaN`).
  Handlers that read `Number(req.query.x)` therefore take a `JsNum` parameter
  standing for that coercion's result.
* An external HTTP call made by a handler is reified as a request value in
  the handler's result, so "no upstream call is made" is expressed by the
  result constructor carrying no request.
* The MongoDB `favorites` collection is a `List Favorite` in insertion
  order; `findOne` is `List.find?` and `create` appends, matching natural
  order scans; generated ids and timestamps enter as explicit parameters.
-/

/-- Result of the JavaScript `Number(...)` coercion: either `NaN`, one of the
two infinities, or a finite value. -/
inductive JsNum where
  | nan : JsNum
  | inf : JsNum
  | negInf : JsNum
  | finite : ℚ → JsNum
deriving DecidableEq, Repr

/-- `Number.isNaN` on a coerced value. -/
def JsNum.isNaN : JsNum → Bool
  | .nan => true
  | _ => false

/-- `Number.isFinite` on a coerced value. -/
def JsNum.isFinite : JsNum → Bool
  | .finite _ => true
  | _ => false

/-- A JSON value as it appears in a parsed request body (`express.json()`);
JSON has no `NaN`/`Infinity`, so numbers are plain rationals. -/
inductive JsonValue where
  | num : ℚ → JsonValue
  | str : String → JsonValue
  | bool : Bool → JsonValue
  | null : JsonValue
deriving DecidableEq, Repr

/-- JavaScript truthiness of a possibly-absent (`undefined`) JSON value, as
used by `if (!name ...)`: `undefined`, `null`, `""`, `0` and `false` are
falsy. -/
def jsTruthy : Option JsonValue → Bool
  | none => false
  | some .null => false
  | some (.str s) => s ≠ ""
  | some (.num q) => q ≠ 0
  | some (.bool b) => b

/-- `typeof v === "number"` for a possibly-absent JSON value. -/
def isJsonNumber : Option JsonValue → Bool
  | some (.num _) => true
  | _ => false

/-- JavaScript `String(...)` cast, as mongoose applies to the `name` field
(schema type `String`). -/
def jsStringOf : JsonValue → String
  | .str s => s
  | .num q => toString q
  | .bool b => if b then "true" else "false"
  | .null => "null"

/-- A stored favorite: mongoose schema `{ name: String, lat: Number,
lon: Number }` with timestamps, plus the generated `_id`. -/
structure Favorite where
  _id : String
  name : String
  lat : ℚ
  lon : ℚ
  createdAt : ℕ
deriving DecidableEq, Repr

/-- Parsed body of `POST /api/favorites` after `req.body || {}` destructuring:
each field is absent (`undefined`) or a JSON value. -/
structure FavBody where
  name : Option JsonValue
  lat : Option JsonValue
  lon : Option JsonValue
deriving DecidableEq, Repr

/-- Response of the `POST /api/favorites` handler: the favorite serialized
with `res.json` (existing or newly created), or the 400 validation error
`{ error: "name, lat, lon required" }`. -/
inductive PostResp where
  | ok : Favorite → PostResp
  | badRequest : PostResp
deriving DecidableEq, Repr

/-- `Favorite.findOne({ lat, lon })`: first record of the collection (in
natural, i.e. insertion, order) whose coordinates match. -/
def favFindOne (lat lon : ℚ) (store : List Favorite) : Option Favorite :=
  store.find? (fun f => f.lat = lat ∧ f.lon = lon)

/-- The `POST /api/favorites` handler (`server.js` lines 128–140): validates
that `name` is truthy and `lat`, `lon` are JSON numbers (`typeof ... ===
"number"`); returns the existing record with the same `(lat, lon)` if one
exists, otherwise inserts a record with the generated id `freshId` and
creation time `now`. Returns the response together with the updated store. -/
def favoritesPost (body : FavBody) (freshId : String) (now : ℕ)
    (store : List Favorite) : PostResp × List Favorite :=
  if !(jsTruthy body.name) || !(isJsonNumber body.lat) || !(isJsonNumber body.lon) then
    (.badRequest, store)
  else
    match body.lat, body.lon with
    | some (.num lat), some (.num lon) =>
      match favFindOne lat lon store with
      | some existing => (.ok existing, store)
      | none =>
        let fav : Favorite :=
          { _id := freshId
            name := jsStringOf (body.name.getD .null)
            lat := lat, lon := lon, createdAt := now }
        (.ok fav, store ++ [fav])
    | _, _ => (.badRequest, store)

/-- Acknowledgement of `DELETE /api/favorites/:id`: always `{ ok: true }`. -/
structure DeleteResp where
  ok : Bool
deriving DecidableEq, Repr

/-- The `DELETE /api/favorites/:id` handler (`server.js` lines 141–144):
`findByIdAndDelete` removes the record with the given id if present (errors
are swallowed by `.catch(() => {})`), and the response is `{ ok: true }`
unconditionally. -/
def favoritesDelete (id : String) (store : List Favorite) :
    DeleteResp × List Favorite :=
  (⟨true⟩, store.eraseP (fun f => f._id = id))

/-- JavaScript whitespace, the characters removed by `String.prototype.trim`
(ASCII part; space, tab, line feed, carriage return, vertical tab, form
feed). -/
def isJsWhitespace (c : Char) : Bool :=
  c = ' ' || c = '\t' || c = '\n' || c = '\r' || c = '\x0b' || c = '\x0c'

/-- JavaScript `s.trim()`: drop leading and trailing whitespace. -/
def jsTrim (s : String) : String :=
  ⟨((s.data.dropWhile isJsWhitespace).reverse.dropWhile isJsWhitespace).reverse⟩

/-- The query string sent to `https://nominatim.openstreetmap.org/search`
by a geocoding call (`axios.get` params). -/
structure GeoRequest where
  q : String
  format : String
  addressdetails : ℕ
  limit : ℕ
deriving DecidableEq, Repr

/-- One record of the nominatim response as the handler reads it: the
display label, and the results of the `+r.lat` / `+r.lon` coercions of the
upstream's string coordinates. -/
structure RawGeo where
  display_name : String
  lat : JsNum
  lon : JsNum
deriving DecidableEq, Repr

/-- A geocoded place `{ name, lat, lon }` as serialized to the client. -/
structure Place where
  name : String
  lat : JsNum
  lon : JsNum
deriving DecidableEq, Repr

/-- First phase of the `GET /api/geocode` handler (`server.js` lines 40–47):
`q = (req.query.q || "").trim()`; an empty trimmed query is answered with
`[]` and no upstream request, otherwise the nominatim request with
`format: "json"`, `addressdetails: 1`, `limit: 5` is issued. -/
inductive GeocodeAction where
  | respondEmpty : GeocodeAction
  | call : GeoRequest → GeocodeAction
deriving DecidableEq, Repr

def geocodeStep (q : Option String) : GeocodeAction :=
  let qs := jsTrim (q.getD "")
  if qs = "" then .respondEmpty
  else .call { q := qs, format := "json", addressdetails := 1, limit := 5 }

/-- Second phase of the `GET /api/geocode` handler (`server.js` lines 48–50):
map the upstream records to `{ name: r.display_name, lat: +r.lat,
lon: +r.lon }`, preserving order. -/
def geocodeRespond (data : List RawGeo) : List Place :=
  data.map (fun r => { name := r.display_name, lat := r.lat, lon := r.lon })

/-- The `current` variable list of the `GET /api/forecast` handler's
open-meteo request (`server.js` lines 69–70). -/
def forecastCurrentParam : String :=
  "temperature_2m,relative_humidity_2m,apparent_temperature,wind_speed_10m,precipitation"

/-- The `hourly` variable list of the `GET /api/forecast` handler's
open-meteo request (`server.js` lines 71–72). -/
def forecastHourlyParam : String :=
  "temperature_2m,precipitation,relative_humidity_2m,wind_speed_10m"

/-- The `daily` variable list of the `GET /api/forecast` handler's
open-meteo request (`server.js` lines 73–74). -/
def forecastDailyParam : String :=
  "weathercode,temperature_2m_max,temperature_2m_min,precipitation_sum,uv_index_max,wind_speed_10m_max"

/-- The parameters of a request to `https://api.open-meteo.com/v1/forecast`.
`current`, `hourly` and `daily` are the comma-separated variable lists; a
variable group that is not requested is `none`. -/
structure MeteoRequest where
  latitude : JsNum
  longitude : JsNum
  current : Option String
  hourly : Option String
  daily : Option String
  timezone : String
  forecast_days : ℕ
deriving DecidableEq, Repr

/-- The `GET /api/forecast` handler (`server.js` lines 57–83), up to the
upstream call: either the 400 validation error `{ error: "lat/lon
required" }` (when `Number(lat)` or `Number(lon)` is `NaN`), or the
open-meteo request it issues. The upstream's response is forwarded
unmodified, so the request fully determines the handler's behaviour. -/
inductive ForecastAction where
  | badRequest : ForecastAction
  | call : MeteoRequest → ForecastAction
deriving DecidableEq, Repr

def forecastStep (lat lon : JsNum) (tz : Option String) : ForecastAction :=
  if lat.isNaN || lon.isNaN then .badRequest
  else
    .call
      { latitude := lat, longitude := lon
        current := some forecastCurrentParam
        hourly := some forecastHourlyParam
        daily := some forecastDailyParam
        timezone := tz.getD "auto"
        forecast_days := 7 }

/-- The `GET /api/searchWeather` handler (`server.js` lines 86–121) as a
function of the query parameters and of the nominatim response (requested
with `limit: 1`): 400 when the trimmed query is empty, 404
`{ error: "Place not found" }` when geocoding yields no record, otherwise
the resolved place together with the open-meteo request issued for it. -/
inductive SearchAction where
  | badRequest : SearchAction
  | notFound : SearchAction
  | callForecast : Place → MeteoRequest → SearchAction
deriving DecidableEq, Repr

def searchWeatherStep (q : Option String) (tz : Option String)
    (geoData : List RawGeo) : SearchAction :=
  let qs := jsTrim (q.getD "")
  if qs = "" then .badRequest
  else
    match geoData with
    | [] => .notFound
    | r :: _ =>
      let place : Place := { name := r.display_name, lat := r.lat, lon := r.lon }
      .callForecast place
        { latitude := place.lat, longitude := place.lon
          current := some forecastCurrentParam
          hourly := none
          daily := some forecastDailyParam
          timezone := tz.getD "auto"
          forecast_days := 7 }

/-!
## Client (`client/src/App.js`)
-/

/-- The `daily` block of an open-meteo forecast payload as the client reads
it: parallel arrays indexed by day offset. `uv_index_max` and
`wind_speed_10m_max` may be absent (the client guards them with `?.`),
modelled as `Option`; an absent value read by plain indexing is `undefined`,
modelled as `Option.none` in the item. -/
structure DailyData where
  time : List String
  temperature_2m_max : List ℚ
  temperature_2m_min : List ℚ
  precipitation_sum : List ℚ
  uv_index_max : Option (List ℚ)
  wind_speed_10m_max : Option (List ℚ)
deriving DecidableEq, Repr

/-- One transposed day record produced by the client's `daily` memo; a field
is `none` where the JavaScript value would be `undefined`. -/
structure DayItem where
  date : String
  tmax : Option ℚ
  tmin : Option ℚ
  precip : Option ℚ
  uv : Option ℚ
  windmax : Option ℚ
deriving DecidableEq, Repr

/-- The client's `daily` memo (`App.js` lines 112–123):
`d.time.map((t, i) => ({ date: t, tmax: d.temperature_2m_max[i], ... }))`,
one record per entry of `time`, with `uv` and `windmax` read through `?.`. -/
def dailyItems (d : DailyData) : List DayItem :=
  d.time.mapIdx fun i t =>
    { date := t
      tmax := d.temperature_2m_max.get? i
      tmin := d.temperature_2m_min.get? i
      precip := d.precipitation_sum.get? i
      uv := (d.uv_index_max.getD []).get? i
      windmax := (d.wind_speed_10m_max.getD []).get? i }

/-- The precipitation bar of one rendered day (`App.js` line 211):
`height: Math.min(100, d.precip * 10) + "%"`. `none` stands for the `NaN`
that `Math.min` yields when `d.precip` is `undefined`. -/
def barHeight (it : DayItem) : Option ℚ :=
  it.precip.map (fun p => min 100 (p * 10))

/-- The heights of the precipitation bars of the rendered 7-day panel, in
day order (`App.js` lines 201–218). -/
def renderBarHeights (d : DailyData) : List (Option ℚ) :=
  (dailyItems d).map barHeight

/-- The state update of the client's `saveFavorite` (`App.js` line 132):
`p.some(f => f._id === data._id) ? p : [data, ...p]`. -/
def saveFavUpdate (data : Favorite) (p : List Favorite) : List Favorite :=
  if p.any (fun f => f._id = data._id) then p else data :: p

/-- The client's `saveFavorite` applied to the server's reply (`App.js`
lines 125–133): the update runs only when `data?._id` is truthy, i.e. the
reply is a record with a nonempty id. -/
def saveFavorite (data : Option Favorite) (p : List Favorite) : List Favorite :=
  match data with
  | none => p
  | some d => if d._id = "" then p else saveFavUpdate d p

/-!
## Theorems
-/

/-- `find?` over an append scans the second part when the first has no
match. -/
theorem find?_append_of_none {α : Type} (l₁ l₂ : List α) (p : α → Bool)
    (h : l₁.find? p = none) : (l₁ ++ l₂).find? p = l₂.find? p := by
  induction l₁ with
  | nil => simp
  | cons a l ih =>
    rw [List.find?_cons] at h
    cases hp : p a with
    | true => simp [hp] at h
    | false =>
      simp only [hp] at h
      simp [List.find?_cons, hp, ih h]

/-- A string all of whose characters are JavaScript whitespace trims to the
empty string. -/
theorem jsTrim_of_all_whitespace (s : String)
    (h : ∀ c ∈ s.data, isJsWhitespace c) : jsTrim s = "" := by
  have h1 : s.data.dropWhile isJsWhitespace = [] :=
    List.dropWhile_eq_nil_iff.mpr h
  simp [jsTrim, h1]

/-- **C6.** For every query consisting only of whitespace (including the
empty string, and an absent `q` parameter), the `GET /api/geocode` handler
responds with the empty array and issues no call to the external geocoding
service. -/
theorem geocode_whitespace_query_no_upstream_call (q : Option String)
    (h : ∀ c ∈ (q.getD "").data, isJsWhitespace c) :
    geocodeStep q = GeocodeAction.respondEmpty := by
  simp [geocodeStep, jsTrim_of_all_whitespace _ h]

/-- Witness for C6: the three-space query, a whitespace-only string, is
answered without an upstream call. -/
theorem geocode_whitespace_query_no_upstream_call_witness :
    (∀ c ∈ (String.data "   "), isJsWhitespace c) ∧
      geocodeStep (some "   ") = GeocodeAction.respondEmpty :=
  ⟨by decide, geocode_whitespace_query_no_upstream_call (some "   ") (by decide)⟩

/-- **C7.** For every id — including one naming no stored favorite — the
`DELETE /api/favorites/:id` handler responds `{ ok: true }`; absence is not
an error, and deleting the same id twice acknowledges success both times. -/
theorem favorites_delete_always_ok (id : String) (store : List Favorite) :
    (favoritesDelete id store).1 = DeleteResp.mk true ∧
      (favoritesDelete id (favoritesDelete id store).2).1 = DeleteResp.mk true := by
  exact ⟨rfl, rfl⟩

/-- **C3.** For every query that is non-empty after trimming (the condition
under which the handler reaches the geocoding step), if geocoding yields
zero results the `GET /api/searchWeather` handler responds 404
`{ error: "Place not found" }` — a signal distinct from the 400 validation
error — and attempts no forecast call. -/
theorem searchWeather_empty_geocode_not_found (q : String) (tz : Option String)
    (h : jsTrim q ≠ "") :
    searchWeatherStep (some q) tz [] = SearchAction.notFound ∧
      SearchAction.notFound ≠ SearchAction.badRequest ∧
      ∀ place req, searchWeatherStep (some q) tz [] ≠
        SearchAction.callForecast place req := by
  refine ⟨?_, by simp, ?_⟩
  · simp [searchWeatherStep, h]
  · intro place req
    simp [searchWeatherStep, h]

/-- Witness for C3: the spec's scenario query `ZZZNotAPlaceZZZ` with an
empty geocoding result is answered 404 with no forecast call. -/
theorem searchWeather_empty_geocode_not_found_witness :
    jsTrim "ZZZNotAPlaceZZZ" ≠ "" ∧
      searchWeatherStep (some "ZZZNotAPlaceZZZ") none [] = SearchAction.notFound :=
  ⟨by decide,
    (searchWeather_empty_geocode_not_found "ZZZNotAPlaceZZZ" none (by decide)).1⟩

/-- **C10.** The client's save-favorite state update preserves distinctness
of favorites by identifier: if the local list's `_id` values are pairwise
distinct, they still are after applying the update for any server reply. -/
theorem saveFavorite_preserves_distinct_ids (data : Option Favorite)
    (p : List Favorite) (h : (p.map Favorite._id).Nodup) :
    ((saveFavorite data p).map Favorite._id).Nodup := by
  match data with
  | none => exact h
  | some d =>
    simp only [saveFavorite]
    by_cases hid : d._id = ""
    · simp [hid, h]
    · simp only [hid, if_false, saveFavUpdate]
      by_cases hmem : p.any (fun f => f._id = d._id)
      · simp [hmem, h]
      · have hnotin : d._id ∉ p.map Favorite._id := by
          intro hin
          rcases List.mem_map.mp hin with ⟨f, hf, hfid⟩
          exact hmem (List.any_eq_true.mpr ⟨f, hf, by simp [hfid]⟩)
        simp [hmem, List.nodup_cons, hnotin, h]

/-- Witness for C10: prepending a fresh record to a one-element list with a
different id keeps the ids pairwise distinct. -/
theorem saveFavorite_preserves_distinct_ids_witness :
    (([({ _id := "a", name := "x", lat := 0, lon := 0, createdAt := 0 } :
        Favorite)]).map Favorite._id).Nodup ∧
      ((saveFavorite
          (some { _id := "b", name := "y", lat := 1, lon := 1, createdAt := 1 })
          [{ _id := "a", name := "x", lat := 0, lon := 0, createdAt := 0 }]).map
        Favorite._id).Nodup :=
  ⟨by decide,
    saveFavorite_preserves_distinct_ids
      (some { _id := "b", name := "y", lat := 1, lon := 1, createdAt := 1 })
      [{ _id := "a", name := "x", lat := 0, lon := 0, createdAt := 0 }]
      (by decide)⟩

/-- **C1.** Calling the favorites create operation twice with the same
`(lat, lon)` pair — even with different (valid) names — returns the same
record both times: the second call returns the first call's record
unchanged, and no second record with that coordinate pair is inserted. -/
theorem favorites_create_idempotent_by_coordinate
    (n1 n2 : String) (lat lon : ℚ) (s0 : List Favorite)
    (id1 id2 : String) (t1 t2 : ℕ) (h1 : n1 ≠ "") (h2 : n2 ≠ "") :
    ∃ f : Favorite,
      (favoritesPost ⟨some (.str n1), some (.num lat), some (.num lon)⟩
          id1 t1 s0).1 = PostResp.ok f ∧
      (favoritesPost ⟨some (.str n2), some (.num lat), some (.num lon)⟩ id2 t2
          (favoritesPost ⟨some (.str n1), some (.num lat), some (.num lon)⟩
            id1 t1 s0).2).1 = PostResp.ok f ∧
      (favoritesPost ⟨some (.str n2), some (.num lat), some (.num lon)⟩ id2 t2
          (favoritesPost ⟨some (.str n1), some (.num lat), some (.num lon)⟩
            id1 t1 s0).2).2 =
        (favoritesPost ⟨some (.str n1), some (.num lat), some (.num lon)⟩
          id1 t1 s0).2 := by
  cases hfind : favFindOne lat lon s0 with
  | some ex =>
    exact ⟨ex, by simp [favoritesPost, jsTruthy, isJsonNumber, h1, h2, hfind]⟩
  | none =>
    have hfind2 :
        favFindOne lat lon
          (s0 ++ [⟨id1, n1, lat, lon, t1⟩]) = some ⟨id1, n1, lat, lon, t1⟩ := by
      rw [favFindOne, find?_append_of_none _ _ _ hfind]
      simp [List.find?_cons]
    exact ⟨⟨id1, n1, lat, lon, t1⟩,
      by simp [favoritesPost, jsTruthy, isJsonNumber, jsStringOf, h1, h2,
        hfind, hfind2]⟩

/-- Witness for C1: the spec's scenario — saving Kolhapur twice (second
time under another name) on an initially empty store returns one and the
same record, with nothing inserted by the second call. -/
theorem favorites_create_idempotent_by_coordinate_witness :
    ("Kolhapur" : String) ≠ "" ∧ ("K2" : String) ≠ "" ∧
    ∃ f : Favorite,
      (favoritesPost ⟨some (.str "Kolhapur"), some (.num (167/10)),
          some (.num (7424/100))⟩ "a" 0 []).1 = PostResp.ok f ∧
      (favoritesPost ⟨some (.str "K2"), some (.num (167/10)),
          some (.num (7424/100))⟩ "b" 1
          (favoritesPost ⟨some (.str "Kolhapur"), some (.num (167/10)),
            some (.num (7424/100))⟩ "a" 0 []).2).1 = PostResp.ok f ∧
      (favoritesPost ⟨some (.str "K2"), some (.num (167/10)),
          some (.num (7424/100))⟩ "b" 1
          (favoritesPost ⟨some (.str "Kolhapur"), some (.num (167/10)),
            some (.num (7424/100))⟩ "a" 0 []).2).2 =
        (favoritesPost ⟨some (.str "Kolhapur"), some (.num (167/10)),
          some (.num (7424/100))⟩ "a" 0 []).2 :=
  ⟨by decide, by decide,
    favorites_create_idempotent_by_coordinate "Kolhapur" "K2"
      (167/10) (7424/100) [] "a" "b" 0 1 (by decide) (by decide)⟩

/-- Counterexample to **C2** as stated: `Number("Infinity")` is `Infinity`,
which is not finite, yet the `GET /api/forecast` handler's `Number.isNaN`
check lets it through — the request `?lat=Infinity&lon=0` produces an
upstream call instead of the 400 validation error. -/
theorem forecast_infinite_lat_calls_upstream :
    JsNum.isFinite JsNum.inf = false ∧
      forecastStep JsNum.inf (JsNum.finite 0) none =
        ForecastAction.call
          { latitude := JsNum.inf, longitude := JsNum.finite 0
            current := some forecastCurrentParam
            hourly := some forecastHourlyParam
            daily := some forecastDailyParam
            timezone := "auto", forecast_days := 7 } :=
  ⟨rfl, rfl⟩

/-- **C2 (amended).** For every request whose `lat` or `lon` query parameter
coerces to `NaN` under `Number(...)` (in particular a missing or
non-numeric parameter), the forecast operation responds with the 400
validation error `{ error: "lat/lon required" }` — distinct from the
upstream-failure 500 — and issues no call to the external forecast
service. Parameters coercing to `±Infinity` pass this check. -/
theorem forecast_nan_rejected_no_upstream_call (lat lon : JsNum)
    (tz : Option String) (h : lat.isNaN = true ∨ lon.isNaN = true) :
    forecastStep lat lon tz = ForecastAction.badRequest := by
  rcases h with h | h <;> simp [forecastStep, h]

/-- Witness for the amended C2: `?lon=0` with `lat` absent coerces `lat` to
`NaN` and is rejected without an upstream call. -/
theorem forecast_nan_rejected_no_upstream_call_witness :
    (JsNum.isNaN JsNum.nan = true ∨ JsNum.isNaN (JsNum.finite 0) = true) ∧
      forecastStep JsNum.nan (JsNum.finite 0) none = ForecastAction.badRequest :=
  ⟨Or.inl rfl,
    forecast_nan_rejected_no_upstream_call JsNum.nan (JsNum.finite 0) none
      (Or.inl rfl)⟩

/-- Counterexample to **C5** as stated: besides the `current` and `daily`
variable groups, every upstream request issued by `GET /api/forecast` also
carries an `hourly` variable group (`server.js` lines 71–72), so it is not
true that no other variable group is requested. -/
theorem forecast_request_carries_hourly_group :
    forecastStep (JsNum.finite 0) (JsNum.finite 0) none =
      ForecastAction.call
        { latitude := JsNum.finite 0, longitude := JsNum.finite 0
          current := some forecastCurrentParam
          hourly := some forecastHourlyParam
          daily := some forecastDailyParam
          timezone := "auto", forecast_days := 7 } ∧
      some forecastHourlyParam ≠ (none : Option String) :=
  ⟨rfl, by simp⟩

/-- **C5 (amended).** Every upstream request issued by the forecast
operation requests exactly the current variables {temperature, apparent
temperature, humidity, wind speed, precipitation} and exactly the daily
variables {weather code, max/min temperature, precipitation sum, max UV
index, max wind speed}, with a fixed 7-day horizon — and additionally one
hourly variable group {temperature, precipitation, humidity, wind speed};
no further variable groups are requested. -/
theorem forecast_request_exact_variables (lat lon : JsNum) (tz : Option String)
    (h1 : lat.isNaN = false) (h2 : lon.isNaN = false) :
    forecastStep lat lon tz =
      ForecastAction.call
        { latitude := lat, longitude := lon
          current := some forecastCurrentParam
          hourly := some forecastHourlyParam
          daily := some forecastDailyParam
          timezone := tz.getD "auto", forecast_days := 7 } ∧
    forecastCurrentParam = String.intercalate ","
      ["temperature_2m", "relative_humidity_2m", "apparent_temperature",
        "wind_speed_10m", "precipitation"] ∧
    forecastDailyParam = String.intercalate ","
      ["weathercode", "temperature_2m_max", "temperature_2m_min",
        "precipitation_sum", "uv_index_max", "wind_speed_10m_max"] ∧
    forecastHourlyParam = String.intercalate ","
      ["temperature_2m", "precipitation", "relative_humidity_2m",
        "wind_speed_10m"] := by
  refine ⟨?_, rfl, rfl, rfl⟩
  simp [forecastStep, h1, h2]

/-- Witness for the amended C5: the concrete request for `lat=0&lon=0`. -/
theorem forecast_request_exact_variables_witness :
    (JsNum.isNaN (JsNum.finite 0) = false ∧ JsNum.isNaN (JsNum.finite 0) = false) ∧
      forecastStep (JsNum.finite 0) (JsNum.finite 0) none =
        ForecastAction.call
          { latitude := JsNum.finite 0, longitude := JsNum.finite 0
            current := some forecastCurrentParam
            hourly := some forecastHourlyParam
            daily := some forecastDailyParam
            timezone := "auto", forecast_days := 7 } :=
  ⟨⟨rfl, rfl⟩,
    (forecast_request_exact_variables (JsNum.finite 0) (JsNum.finite 0) none
      rfl rfl).1⟩

/-- **C9.** The favorites create operation accepts `lat`/`lon` by JSON type,
not by parseability: a body whose `lat` or `lon` is present but not a JSON
number (e.g. the string `"16.7"`) is rejected with the 400 validation error
and the store is untouched — unlike the forecast operation, which coerces
its query parameters (`Number("16.7")` is finite) and proceeds to the
upstream call. -/
theorem favorites_post_rejects_non_number_type (body : FavBody)
    (freshId : String) (now : ℕ) (store : List Favorite)
    (h : isJsonNumber body.lat = false ∨ isJsonNumber body.lon = false) :
    favoritesPost body freshId now store = (PostResp.badRequest, store) ∧
      forecastStep (JsNum.finite (167/10)) (JsNum.finite (7424/100)) none ≠
        ForecastAction.badRequest := by
  constructor
  · rcases h with h | h <;> simp [favoritesPost, h]
  · simp [forecastStep, JsNum.isNaN]

/-- Witness for C9: the body `{name: "Kolhapur", lat: "16.7", lon: 74.24}`,
whose `lat` is a string that parses as a finite number, is rejected. -/
theorem favorites_post_rejects_non_number_type_witness :
    (isJsonNumber (some (.str "16.7")) = false ∨
      isJsonNumber (some (.num (7424/100))) = false) ∧
      favoritesPost
        ⟨some (.str "Kolhapur"), some (.str "16.7"), some (.num (7424/100))⟩
        "a" 0 [] = (PostResp.badRequest, []) :=
  ⟨Or.inl rfl,
    (favorites_post_rejects_non_number_type
      ⟨some (.str "Kolhapur"), some (.str "16.7"), some (.num (7424/100))⟩
      "a" 0 [] (Or.inl rfl)).1⟩

/-- **C8.** For every loaded forecast day with precipitation sum `p`
millimetres, the rendered precipitation bar height is
`min(100, p × 10)` percent. -/
theorem precipitation_bar_height (d : DailyData) (i : ℕ) (p : ℚ)
    (hi : i < d.time.length) (hp : d.precipitation_sum.get? i = some p) :
    (renderBarHeights d).get? i = some (some (min 100 (p * 10))) := by
  have hi' : i < (dailyItems d).length := by
    simpa [dailyItems] using hi
  have hget : (dailyItems d).get ⟨i, hi'⟩ =
      { date := d.time.get ⟨i, hi⟩
        tmax := d.temperature_2m_max.get? i
        tmin := d.temperature_2m_min.get? i
        precip := d.precipitation_sum.get? i
        uv := (d.uv_index_max.getD []).get? i
        windmax := (d.wind_speed_10m_max.getD []).get? i } :=
    List.get_mapIdx d.time _ i hi hi'
  rw [renderBarHeights, List.get?_map, List.get?_eq_get hi', hget]
  rw [List.get?_eq_getElem?] at hp
  simp [barHeight, hp]

/-- Witness for C8: a one-day forecast with 3 mm precipitation renders a
30 % bar. -/
theorem precipitation_bar_height_witness :
    (0 < (DailyData.mk ["2026-10-11"] [20] [10] [3] (some [5]) none).time.length ∧
      (DailyData.mk ["2026-10-11"] [20] [10] [3]
        (some [5]) none).precipitation_sum.get? 0 = some 3) ∧
    (renderBarHeights
        (DailyData.mk ["2026-10-11"] [20] [10] [3] (some [5]) none)).get? 0 =
      some (some (min 100 (3 * 10))) :=
  ⟨⟨by decide, by decide⟩,
    precipitation_bar_height
      (DailyData.mk ["2026-10-11"] [20] [10] [3] (some [5]) none) 0 3
      (by decide) (by decide)⟩

/-- **C4.** For every non-empty query (one on which the geocode handler
issues its upstream request, which carries `limit: 5`): provided the
upstream response honours the requested limit and its coordinate fields
coerce to finite in-range numbers — nominatim's documented contract — the
handler returns at most 5 places, each with finite `lat ∈ [-90, 90]` and
finite `lon ∈ [-180, 180]`, since it forwards length and coordinates
unchanged. -/
theorem geocode_at_most_five_places_in_range (q : Option String)
    (req : GeoRequest) (data : List RawGeo)
    (hreq : geocodeStep q = GeocodeAction.call req)
    (hlen : data.length ≤ req.limit)
    (hcoords : ∀ r ∈ data,
      (∃ x : ℚ, r.lat = JsNum.finite x ∧ -90 ≤ x ∧ x ≤ 90) ∧
      (∃ y : ℚ, r.lon = JsNum.finite y ∧ -180 ≤ y ∧ y ≤ 180)) :
    (geocodeRespond data).length ≤ 5 ∧
    ∀ p ∈ geocodeRespond data,
      ((∃ x : ℚ, p.lat = JsNum.finite x ∧ -90 ≤ x ∧ x ≤ 90) ∧
        (∃ y : ℚ, p.lon = JsNum.finite y ∧ -180 ≤ y ∧ y ≤ 180)) := by
  have hlimit : req.limit = 5 := by
    by_cases hq : jsTrim (q.getD "") = ""
    · simp [geocodeStep, hq] at hreq
    · simp [geocodeStep, hq] at hreq
      rw [← hreq]
  constructor
  · simpa [geocodeRespond, hlimit] using hlen
  · intro p hp
    rcases List.mem_map.mp hp with ⟨r, hr, hrp⟩
    rcases hcoords r hr with ⟨hx, hy⟩
    rw [← hrp]
    exact ⟨hx, hy⟩

/-- Witness for C4: the query `Kolhapur` with a single in-range upstream
record yields one place within bounds. -/
theorem geocode_at_most_five_places_in_range_witness :
    (geocodeStep (some "Kolhapur") =
        GeocodeAction.call
          { q := "Kolhapur", format := "json", addressdetails := 1, limit := 5 } ∧
      ([RawGeo.mk "Kolhapur, Maharashtra, India" (JsNum.finite 17)
          (JsNum.finite 74)]).length ≤
        (GeoRequest.mk "Kolhapur" "json" 1 5).limit) ∧
    ((geocodeRespond
        [RawGeo.mk "Kolhapur, Maharashtra, India" (JsNum.finite 17)
          (JsNum.finite 74)]).length ≤ 5 ∧
      ∀ p ∈ geocodeRespond
          [RawGeo.mk "Kolhapur, Maharashtra, India" (JsNum.finite 17)
            (JsNum.finite 74)],
        ((∃ x : ℚ, p.lat = JsNum.finite x ∧ -90 ≤ x ∧ x ≤ 90) ∧
          (∃ y : ℚ, p.lon = JsNum.finite y ∧ -180 ≤ y ∧ y ≤ 180))) :=
  ⟨⟨by decide, by decide⟩,
    geocode_at_most_five_places_in_range (some "Kolhapur")
      (GeoRequest.mk "Kolhapur" "json" 1 5)
      [RawGeo.mk "Kolhapur, Maharashtra, India" (JsNum.finite 17)
        (JsNum.finite 74)]
      (by decide) (by decide)
      (by
        intro r hr
        simp only [List.mem_singleton] at hr
        subst hr
        exact ⟨⟨17, rfl, by norm_num, by norm_num⟩,
          ⟨74, rfl, by norm_num, by norm_num⟩⟩)⟩
